import Mathlib

/-!
Verification of the portfolio-daily-email scoring/alerting engine.

The repository has two Python modules:
  * portfolio_allocator.py  (down-streak, drawdown, panic score, growth
    score, classification into action buckets)
  * portfolio_mailer.py     (up/down streak, windowed drawdown/run-up via
    safe_pct, alert messages, alert severity ranking and table sorting)

Prices and percentage values are embedded as rationals (the Python code
uses floats; all concrete inputs used below are exactly representable, so
the rational model agrees with the float computation on them).  Python
ints are embedded as ℤ where they can be negative (scores) and as ℕ where
the source only ever counts upward (streak counters, day thresholds).
Missing numeric fundamentals (the `isinstance` checks in score_growth)
are embedded as `Option ℚ`.
-/

namespace Portfolio

/-! ## portfolio_mailer.py: safe_pct, window, rolling extremes -/

/-- Function safe_pct from portfolio_mailer.py: returns 0 when the denominator is
None/NaN/0.0 (in the rational model: equal to 0), otherwise
`num / den * 100`. -/
def safe_pct (num den : ℚ) : ℚ :=
  if den = 0 then 0 else num / den * 100

/-- The window `closes.iloc[-lookback:] if len(closes) >= lookback else closes`
used for drawdown/run-up in portfolio_mailer.main.  Python's `iloc[-0:]`
is the whole series, hence the `lookback = 0` case. -/
def lastWindow (closes : List ℚ) (lookback : Nat) : List ℚ :=
  if lookback ≤ closes.length then
    (if lookback = 0 then closes else closes.drop (closes.length - lookback))
  else closes

/-- Model of window.max().  The source only evaluates it on a nonempty window
(main requires at least 15 closes); the `[]` case is unreachable there. -/
def listMax : List ℚ → ℚ
  | [] => 0
  | a :: t => t.foldl max a

/-- Model of window.min(), same remark as listMax. -/
def listMin : List ℚ → ℚ
  | [] => 0
  | a :: t => t.foldl min a

/-- Model of closes.iloc[-1] (the series is nonempty on the code path). -/
def lastClose (closes : List ℚ) : ℚ :=
  (closes.getLast?).getD 0

/-- Computation dd_pct = safe_pct(last_close - rolling_high, rolling_high)
from portfolio_mailer.main. -/
def drawdown_pct (closes : List ℚ) (lookback : Nat) : ℚ :=
  safe_pct (lastClose closes - listMax (lastWindow closes lookback))
    (listMax (lastWindow closes lookback))

/-- Computation ru_pct = safe_pct(last_close - rolling_low, rolling_low)
from portfolio_mailer.main. -/
def runup_pct (closes : List ℚ) (lookback : Nat) : ℚ :=
  safe_pct (lastClose closes - listMin (lastWindow closes lookback))
    (listMin (lastWindow closes lookback))

/-! ## portfolio_mailer.py: compute_streak -/

/-- The backward scan of `compute_streak`, expressed on the reversed close
list: comparing `closes[i]` with `closes[i-1]` for `i = n-1, …, 1` is
comparing adjacent elements of `closes.reverse` in order. -/
def streakGo : List ℚ → Nat → Nat → Nat × Nat
  | a :: b :: rest, up, down =>
    if b < a then
      (if 0 < down then (up, down) else streakGo (b :: rest) (up + 1) down)
    else if a < b then
      (if 0 < up then (up, down) else streakGo (b :: rest) up (down + 1))
    else (up, down)
  | _, up, down => (up, down)

/-- Function compute_streak from portfolio_mailer.py: consecutive up/down days
counted from the most recent close backwards; fewer than 2 points gives
`(0, 0)`. -/
def compute_streak (closes : List ℚ) : Nat × Nat :=
  if closes.length < 2 then (0, 0) else streakGo closes.reverse 0 0

/-! ## portfolio_allocator.py: compute_down_streak, compute_drawdown_pct -/

/-- Backward scan of `compute_down_streak`, on the reversed close list. -/
def downGo : List ℚ → Nat → Nat
  | a :: b :: rest, s => if a < b then downGo (b :: rest) (s + 1) else s
  | _, s => s

/-- Function compute_down_streak from portfolio_allocator.py. -/
def compute_down_streak (closes : List ℚ) : Nat :=
  if closes.length < 2 then 0 else downGo closes.reverse 0

/-- Function compute_drawdown_pct from portfolio_allocator.py: the positive
decline `(peak - last) / peak * 100`, guarded by `peak <= 0 => 0`,
and 0 for an empty series. -/
def compute_drawdown_pct (closes : List ℚ) : ℚ :=
  match closes with
  | [] => 0
  | _ :: _ =>
    if listMax closes ≤ 0 then 0
    else (listMax closes - lastClose closes) / listMax closes * 100

/-! ## Rounding / formatting helpers (Python round / "%.1f") -/

/-- Round half to even to an integer, as Python's `round` does (exact on
the rational model whenever the float value is exact). -/
def rhe (q : ℚ) : ℤ :=
  let n := ⌊q⌋
  let r := q - (n : ℚ)
  if r < 1 / 2 then n
  else if 1 / 2 < r then n + 1
  else if n % 2 = 0 then n else n + 1

/-- Python's `round(x, 2)` on the rational model. -/
def round2 (q : ℚ) : ℚ :=
  (rhe (q * 100) : ℚ) / 100

/-- Python's `f"{x:.1f}"` on the rational model (sign, integer part, one
decimal digit, round half to even). -/
def fmt1 (q : ℚ) : String :=
  let n := rhe (q * 10)
  let digits := toString (n.natAbs / 10) ++ "." ++ toString (n.natAbs % 10)
  if n < 0 then "-" ++ digits else digits

/-! ## portfolio_allocator.py: score_panic -/

/-- Function score_panic from portfolio_allocator.py.  The parameter
panicStreakDays is the PANIC_STREAK_DAYS configuration value (a day
count).  Returns (score, streak, round(dd, 2)). -/
def score_panic (closes : List ℚ) (panicStreakDays : Nat) : ℤ × Nat × ℚ :=
  let streak := compute_down_streak closes
  let dd := compute_drawdown_pct closes
  let score : ℤ := 0
  let score := if panicStreakDays ≤ streak then score + 2
    else if max 3 (panicStreakDays / 2) ≤ streak then score + 1 else score
  let score := if (20 : ℚ) ≤ dd then score + 2
    else if (10 : ℚ) ≤ dd then score + 1 else score
  (score, streak, round2 dd)

/-! ## portfolio_allocator.py: fundamentals and score_growth -/

/-- The fields of the dict built by `get_fundamentals` that `score_growth`
reads (`quoteType` only feeds `is_etf_like`, whose boolean result is the
`etf` argument below).  `none` models an absent value or one failing the
`isinstance((int, float))` check. -/
structure Fundamentals where
  sector : String
  roe : Option ℚ
  earnings_growth : Option ℚ
  revenue_growth : Option ℚ
  debt_to_equity : Option ℚ

/-- The `GROWTH_SECTOR_KEYWORDS` configuration list. -/
def GROWTH_SECTOR_KEYWORDS : List String :=
  ["DEFENCE", "RAIL", "INFRA", "POWER", "RENEWABLE",
   "CAPITAL GOODS", "MANUFACTURING", "INSURANCE"]

/-- Python's `k in sector` substring test. -/
def containsSub (hay needle : String) : Bool :=
  (List.range (hay.length + 1)).any fun i => needle.isPrefixOf (hay.drop i)

/-- Function score_growth from portfolio_allocator.py: 0 immediately for
ETF-like symbols, otherwise sequential conditional increments for
earnings growth, revenue growth, ROE, debt-to-equity and sector. -/
def score_growth (f : Fundamentals) (etf : Bool) : ℤ :=
  if etf then 0 else
  let score : ℤ := 0
  let score := match f.earnings_growth with
    | some eg => if (0.15 : ℚ) < eg then score + 2
      else if (0.05 : ℚ) < eg then score + 1 else score
    | none => score
  let score := match f.revenue_growth with
    | some rg => if (0.10 : ℚ) < rg then score + 1 else score
    | none => score
  let score := match f.roe with
    | some r => if (0.15 : ℚ) < r then score + 1 else score
    | none => score
  let score := match f.debt_to_equity with
    | some de => if de ≤ 1 then score + 1
      else if de ≤ 100 then score + 1 else score
    | none => score
  let score := if GROWTH_SECTOR_KEYWORDS.any (fun k => containsSub f.sector k)
    then score + 1 else score
  score

/-! ## portfolio_allocator.py: classify -/

inductive Action
  | STRONG_ADD
  | PANIC_ADD
  | GROWTH_ADD
  | WAIT
deriving DecidableEq, Repr

/-- Function classify from portfolio_allocator.py (the source labels carry emoji
prefixes, dropped here; the allocation strings are kept verbatim). -/
def classify (panic_score growth_score : ℤ) : Action × String :=
  if panic_score ≥ 2 ∧ growth_score ≥ 3 then (Action.STRONG_ADD, "30–40%")
  else if panic_score ≥ 2 then (Action.PANIC_ADD, "20–30%")
  else if growth_score ≥ 3 then (Action.GROWTH_ADD, "20–30%")
  else (Action.WAIT, "0–10%")

/-! ## portfolio_mailer.py: alerts and severity -/

inductive Trend
  | UP
  | DOWN
  | FLAT
  | NA
deriving DecidableEq, Repr

/-- The four alert rules of portfolio_mailer.main, in source order;
`streakDays`, `ddThr`, `ruThr` are `ALERT_STREAK_DAYS`,
`ALERT_DRAWDOWN_PCT`, `ALERT_RUNUP_PCT`. -/
def evaluateAlerts (down_s up_s : Nat) (trend : Trend) (dd_pct ru_pct : ℚ)
    (streakDays : Nat) (ddThr ruThr : ℚ) : List String :=
  (if streakDays ≤ down_s then ["Down " ++ toString down_s ++ " days"] else []) ++
  (if streakDays ≤ up_s then ["Up " ++ toString up_s ++ " days"] else []) ++
  (if trend = Trend.DOWN ∧ dd_pct ≤ -(abs ddThr)
    then ["Drawdown " ++ fmt1 dd_pct ++ "%"] else []) ++
  (if trend = Trend.UP ∧ abs ruThr ≤ ru_pct
    then ["Run-up " ++ fmt1 ru_pct ++ "%"] else [])

/-- The `__sev` column of build_email: +2 for a DOWN trend, +2 for a
drawdown at or below minus the drawdown threshold, +1 for a down streak
at or past the streak threshold. -/
def severity_rank (trend : Trend) (dd_pct : ℚ) (down_s : Nat)
    (ddThr : ℚ) (streakDays : Nat) : Nat :=
  (if trend = Trend.DOWN then 2 else 0) +
  (if dd_pct ≤ -(abs ddThr) then 2 else 0) +
  (if streakDays ≤ down_s then 1 else 0)

/-- One row of the per-symbol table built in portfolio_mailer.main, with
the fields build_email reads for alert filtering and sorting. -/
structure Row where
  symbol : String
  trend : Trend
  upStreak : Nat
  downStreak : Nat
  dd_pct : ℚ
  ru_pct : ℚ
  alert : List String

/-- The sort order of build_email's alert table: severity descending,
then drawdown ascending, then down streak descending. -/
def rowLE (ddThr : ℚ) (streakDays : Nat) (a b : Row) : Bool :=
  let sa := severity_rank a.trend a.dd_pct a.downStreak ddThr streakDays
  let sb := severity_rank b.trend b.dd_pct b.downStreak ddThr streakDays
  if sa = sb then
    (if a.dd_pct = b.dd_pct then decide (b.downStreak ≤ a.downStreak)
     else decide (a.dd_pct < b.dd_pct))
  else decide (sb < sa)

/-- build_email's alert table: keep the rows with a non-empty alert
string, then sort them by `rowLE`. -/
def buildAlertTable (ddThr : ℚ) (streakDays : Nat) (rows : List Row) : List Row :=
  (rows.filter fun r => !r.alert.isEmpty).mergeSort (rowLE ddThr streakDays)

/-- The closing series of the spec's panic scenario. -/
def demoCloses : List ℚ := [100, 98, 95, 90, 85, 80, 78, 75]

/-! ## Helper lemmas -/

lemma rhe_intCast (z : ℤ) : rhe (z : ℚ) = z := by
  simp [rhe, Int.floor_intCast]

lemma base_le_foldl_max : ∀ (t : List ℚ) (a : ℚ), a ≤ t.foldl max a := by
  intro t
  induction t with
  | nil => intro a; simp
  | cons b t ih =>
    intro a
    exact le_trans (le_max_left a b) (ih (max a b))

lemma mem_le_foldl_max : ∀ (t : List ℚ) (a x : ℚ), x ∈ t → x ≤ t.foldl max a := by
  intro t
  induction t with
  | nil => intro a x hx; simp at hx
  | cons b t ih =>
    intro a x hx
    rcases List.mem_cons.mp hx with h | h
    · subst h
      exact le_trans (le_max_right a x) (base_le_foldl_max t (max a x))
    · exact ih (max a b) x h

lemma le_listMax {l : List ℚ} {x : ℚ} (hx : x ∈ l) : x ≤ listMax l := by
  cases l with
  | nil => simp at hx
  | cons a t =>
    rcases List.mem_cons.mp hx with h | h
    · subst h; exact base_le_foldl_max t x
    · exact mem_le_foldl_max t a x h

lemma lastClose_mem {closes : List ℚ} (h : closes ≠ []) : lastClose closes ∈ closes := by
  rw [lastClose, List.getLast?_eq_getLast closes h]
  exact List.getLast_mem h

lemma lastClose_mem_drop : ∀ (closes : List ℚ) (k : Nat), k < closes.length →
    lastClose closes ∈ closes.drop k := by
  intro closes
  induction closes with
  | nil => intro k hk; simp at hk
  | cons a t ih =>
    intro k hk
    cases k with
    | zero =>
      exact lastClose_mem (by simp)
    | succ j =>
      simp only [List.length_cons] at hk
      have hj : j < t.length := by omega
      have ht : t ≠ [] := by
        cases t
        · simp at hj
        · simp
      have heq : lastClose (a :: t) = lastClose t := by
        cases t with
        | nil => simp at ht
        | cons b rest => rw [lastClose, lastClose, List.getLast?_cons_cons]
      rw [List.drop_succ_cons, heq]
      exact ih j hj

lemma lastClose_mem_lastWindow (closes : List ℚ) (lb : Nat) (h : closes ≠ []) :
    lastClose closes ∈ lastWindow closes lb := by
  rw [lastWindow]
  split_ifs with h1 h2
  · exact lastClose_mem h
  · apply lastClose_mem_drop
    have : 0 < closes.length := List.length_pos.mpr h
    omega
  · exact lastClose_mem h

lemma streakGo_exclusive : ∀ (l : List ℚ) (u d : Nat), u = 0 ∨ d = 0 →
    (streakGo l u d).1 = 0 ∨ (streakGo l u d).2 = 0 := by
  intro l
  induction l with
  | nil => intro u d h; simpa [streakGo] using h
  | cons a t ih =>
    intro u d h
    cases t with
    | nil => simpa [streakGo] using h
    | cons b rest =>
      rw [streakGo]
      split_ifs with h1 h2 h3 h4
      · exact h
      · exact ih (u + 1) d (by omega)
      · exact h
      · exact ih u (d + 1) (by omega)
      · exact h

lemma downGo_chain : ∀ (l : List ℚ), l.Chain' (· < ·) → ∀ s,
    downGo l s = s + (l.length - 1) := by
  intro l
  induction l with
  | nil => intro _ s; simp [downGo]
  | cons a t ih =>
    intro hc s
    cases t with
    | nil => simp [downGo]
    | cons b rest =>
      rw [List.chain'_cons] at hc
      rw [downGo, if_pos hc.1, ih hc.2 (s + 1)]
      simp
      omega

lemma streakGo_down_chain : ∀ (l : List ℚ), l.Chain' (· < ·) → ∀ d,
    streakGo l 0 d = (0, d + (l.length - 1)) := by
  intro l
  induction l with
  | nil => intro _ d; simp [streakGo]
  | cons a t ih =>
    intro hc d
    cases t with
    | nil => simp [streakGo]
    | cons b rest =>
      rw [List.chain'_cons] at hc
      rw [streakGo, if_neg (by exact fun h => absurd hc.1 (not_lt.mpr h.le)), if_pos hc.1,
        if_neg (by omega), ih hc.2 (d + 1)]
      simp
      omega

lemma streakGo_up_chain : ∀ (l : List ℚ), l.Chain' (· > ·) → ∀ u,
    streakGo l u 0 = (u + (l.length - 1), 0) := by
  intro l
  induction l with
  | nil => intro _ u; simp [streakGo]
  | cons a t ih =>
    intro hc u
    cases t with
    | nil => simp [streakGo]
    | cons b rest =>
      rw [List.chain'_cons] at hc
      rw [streakGo, if_pos hc.1, if_neg (by omega), ih hc.2 (u + 1)]
      simp
      omega

lemma rowLE_total (ddThr : ℚ) (sd : Nat) (a b : Row) :
    (rowLE ddThr sd a b || rowLE ddThr sd b a) = true := by
  rw [Bool.or_eq_true]
  simp only [rowLE]
  set sa := severity_rank a.trend a.dd_pct a.downStreak ddThr sd
  set sb := severity_rank b.trend b.dd_pct b.downStreak ddThr sd
  by_cases h : sa = sb
  · rw [if_pos h, if_pos h.symm]
    by_cases hd : a.dd_pct = b.dd_pct
    · rw [if_pos hd, if_pos hd.symm]
      rcases Nat.le_total b.downStreak a.downStreak with hle | hle
      · exact Or.inl (decide_eq_true hle)
      · exact Or.inr (decide_eq_true hle)
    · rw [if_neg hd, if_neg (Ne.symm hd)]
      rcases lt_or_gt_of_ne hd with hlt | hlt
      · exact Or.inl (decide_eq_true hlt)
      · exact Or.inr (decide_eq_true hlt)
  · rw [if_neg h, if_neg (Ne.symm h)]
    rcases lt_or_gt_of_ne h with hlt | hlt
    · exact Or.inr (decide_eq_true hlt)
    · exact Or.inl (decide_eq_true hlt)

lemma rowLE_trans (ddThr : ℚ) (sd : Nat) (a b c : Row)
    (hab : rowLE ddThr sd a b = true) (hbc : rowLE ddThr sd b c = true) :
    rowLE ddThr sd a c = true := by
  simp only [rowLE] at hab hbc ⊢
  set sa := severity_rank a.trend a.dd_pct a.downStreak ddThr sd
  set sb := severity_rank b.trend b.dd_pct b.downStreak ddThr sd
  set sc := severity_rank c.trend c.dd_pct c.downStreak ddThr sd
  by_cases h1 : sa = sb <;> by_cases h2 : sb = sc
  · rw [if_pos h1] at hab
    rw [if_pos h2] at hbc
    rw [if_pos (h1.trans h2)]
    by_cases d1 : a.dd_pct = b.dd_pct <;> by_cases d2 : b.dd_pct = c.dd_pct
    · rw [if_pos d1] at hab
      rw [if_pos d2] at hbc
      rw [if_pos (d1.trans d2)]
      exact decide_eq_true (le_trans (of_decide_eq_true hbc) (of_decide_eq_true hab))
    · rw [if_pos d1] at hab
      rw [if_neg d2] at hbc
      have hlt : b.dd_pct < c.dd_pct := of_decide_eq_true hbc
      rw [if_neg (by rw [d1]; exact ne_of_lt hlt)]
      exact decide_eq_true (by rw [d1]; exact hlt)
    · rw [if_neg d1] at hab
      rw [if_pos d2] at hbc
      have hlt : a.dd_pct < b.dd_pct := of_decide_eq_true hab
      rw [if_neg (by rw [← d2]; exact ne_of_lt hlt)]
      exact decide_eq_true (by rw [← d2]; exact hlt)
    · rw [if_neg d1] at hab
      rw [if_neg d2] at hbc
      have l1 : a.dd_pct < b.dd_pct := of_decide_eq_true hab
      have l2 : b.dd_pct < c.dd_pct := of_decide_eq_true hbc
      rw [if_neg (ne_of_lt (lt_trans l1 l2))]
      exact decide_eq_true (lt_trans l1 l2)
  · rw [if_neg h2] at hbc
    have hlt : sc < sb := of_decide_eq_true hbc
    rw [if_neg (by omega)]
    exact decide_eq_true (by omega)
  · rw [if_neg h1] at hab
    have hlt : sb < sa := of_decide_eq_true hab
    rw [if_neg (by omega)]
    exact decide_eq_true (by omega)
  · rw [if_neg h1] at hab
    rw [if_neg h2] at hbc
    have l1 : sb < sa := of_decide_eq_true hab
    have l2 : sc < sb := of_decide_eq_true hbc
    rw [if_neg (by omega)]
    exact decide_eq_true (by omega)

/-! ## Claim theorems -/

/-- Claim C1, counterexample: the claim says the drawdown percentage is
always at most 0, and equal to 0 whenever the rolling high is at most 0.
On the series [-2, -4] the rolling high is -2 (at most 0), yet safe_pct
only guards a zero denominator, so the code divides by the negative
rolling high and returns +100. -/
theorem drawdown_pct_counterexample :
    listMax (lastWindow [(-2 : ℚ), -4] 20) ≤ 0 ∧
    drawdown_pct [(-2 : ℚ), -4] 20 = 100 ∧
    ¬ drawdown_pct [(-2 : ℚ), -4] 20 ≤ 0 := by
  have h : drawdown_pct [(-2 : ℚ), -4] 20 = 100 := by
    norm_num [drawdown_pct, safe_pct, lastWindow, listMax, lastClose, max_def]
  refine ⟨by decide, h, ?_⟩
  rw [h]
  norm_num

/-- Claim C1, amended: over the last lookback points (or the whole series
if shorter), the drawdown equals (last - rollingHigh) / rollingHigh * 100
whenever rollingHigh is nonzero, is 0 when rollingHigh equals 0 (the only
guarded case), and is at most 0 whenever rollingHigh is positive — in
particular for every series of positive prices. -/
theorem drawdown_pct_amended :
    (∀ (closes : List ℚ) (lb : Nat), listMax (lastWindow closes lb) ≠ 0 →
      drawdown_pct closes lb =
        (lastClose closes - listMax (lastWindow closes lb)) /
          listMax (lastWindow closes lb) * 100) ∧
    (∀ (closes : List ℚ) (lb : Nat), listMax (lastWindow closes lb) = 0 →
      drawdown_pct closes lb = 0) ∧
    (∀ (closes : List ℚ) (lb : Nat), closes ≠ [] →
      0 < listMax (lastWindow closes lb) → drawdown_pct closes lb ≤ 0) := by
  refine ⟨?_, ?_, ?_⟩
  · intro closes lb h
    rw [drawdown_pct, safe_pct, if_neg h]
  · intro closes lb h
    rw [drawdown_pct, h, safe_pct, if_pos rfl]
  · intro closes lb hne hpos
    have hmem := lastClose_mem_lastWindow closes lb hne
    have hle : lastClose closes ≤ listMax (lastWindow closes lb) := le_listMax hmem
    rw [drawdown_pct, safe_pct, if_neg (ne_of_gt hpos)]
    have hq : (lastClose closes - listMax (lastWindow closes lb)) /
        listMax (lastWindow closes lb) ≤ 0 :=
      div_nonpos_iff.mpr (Or.inr ⟨by linarith, hpos.le⟩)
    linarith

/-- Witness for drawdown_pct_amended at concrete inputs. -/
theorem drawdown_pct_amended_witness :
    (drawdown_pct [(4 : ℚ), 2] 20 =
      (lastClose [(4 : ℚ), 2] - listMax (lastWindow [(4 : ℚ), 2] 20)) /
        listMax (lastWindow [(4 : ℚ), 2] 20) * 100) ∧
    drawdown_pct [(0 : ℚ)] 3 = 0 ∧
    drawdown_pct [(4 : ℚ), 2] 20 ≤ 0 :=
  ⟨drawdown_pct_amended.1 [(4 : ℚ), 2] 20 (by decide),
   drawdown_pct_amended.2.1 [(0 : ℚ)] 3 (by decide),
   drawdown_pct_amended.2.2 [(4 : ℚ), 2] 20 (by decide) (by decide)⟩

/-- Claim C2: classify maps every pair of integer scores to exactly one of
the four outcomes in first-match order — panic at least 2 and growth at
least 3 gives (STRONG_ADD, 30–40%); else panic at least 2 gives
(PANIC_ADD, 20–30%); else growth at least 3 gives (GROWTH_ADD, 20–30%);
else (WAIT, 0–10%) — so the four outcomes partition the input space with
no overlap and no gap, and the same pair always yields the same result. -/
theorem classify_partition : ∀ p g : ℤ,
    (classify p g = (Action.STRONG_ADD, "30–40%") ↔ 2 ≤ p ∧ 3 ≤ g) ∧
    (classify p g = (Action.PANIC_ADD, "20–30%") ↔ 2 ≤ p ∧ g < 3) ∧
    (classify p g = (Action.GROWTH_ADD, "20–30%") ↔ p < 2 ∧ 3 ≤ g) ∧
    (classify p g = (Action.WAIT, "0–10%") ↔ p < 2 ∧ g < 3) := by
  intro p g
  by_cases h1 : 2 ≤ p <;> by_cases h2 : 3 ≤ g <;>
    simp [classify, h1, h2, Prod.ext_iff, String.ext_iff] <;> omega

/-- Claim C3, counterexample: the claim states that the drawdown over the
full window of [100, 98, 95, 90, 85, 80, 78, 75] is -25.0, but the
allocator computes the positive decline (peak - last) / peak * 100, which
is +25 on that series. -/
theorem drawdown_sign_counterexample :
    compute_drawdown_pct demoCloses = 25 ∧ compute_drawdown_pct demoCloses ≠ -25 := by
  have h : compute_drawdown_pct demoCloses = 25 := by
    have ha : listMax demoCloses = 100 := by decide
    have hb : lastClose demoCloses = 75 := by decide
    simp only [demoCloses] at ha hb ⊢
    simp only [compute_drawdown_pct, ha, hb]
    norm_num
  refine ⟨h, ?_⟩
  rw [h]
  norm_num

/-- Claim C3, amended: score_panic is the sum of two independent rules —
downStreak past streakThreshold gives +2, else past max(3,
streakThreshold/2) gives +1; and drawdown at least 20 gives +2, else at
least 10 gives +1, where the drawdown is the positive decline
(peak - last) / peak * 100 — so its maximum is 4; for the closing series
[100, 98, 95, 90, 85, 80, 78, 75] with streakThreshold 7 the down streak
is 7, the drawdown over the full window is +25.0, and the panic score
is 4. -/
theorem score_panic_amended :
    (∀ (closes : List ℚ) (thr : Nat),
      (score_panic closes thr).1 =
        (if thr ≤ compute_down_streak closes then 2
          else if max 3 (thr / 2) ≤ compute_down_streak closes then 1 else 0) +
        (if (20 : ℚ) ≤ compute_drawdown_pct closes then 2
          else if (10 : ℚ) ≤ compute_drawdown_pct closes then 1 else 0) ∧
      0 ≤ (score_panic closes thr).1 ∧ (score_panic closes thr).1 ≤ 4) ∧
    compute_down_streak demoCloses = 7 ∧
    score_panic demoCloses 7 = (4, 7, 25) := by
  refine ⟨?_, by decide, ?_⟩
  · intro closes thr
    refine ⟨?_, ?_, ?_⟩ <;> simp only [score_panic] <;> split_ifs <;> omega
  · have h1 : compute_down_streak demoCloses = 7 := by decide
    have h2 : compute_drawdown_pct demoCloses = 25 := by
      have ha : listMax demoCloses = 100 := by decide
      have hb : lastClose demoCloses = 75 := by decide
      simp only [demoCloses] at ha hb ⊢
      simp only [compute_drawdown_pct, ha, hb]
      norm_num
    have h3 : round2 25 = 25 := by
      have h : ((25 : ℚ) * 100) = ((2500 : ℤ) : ℚ) := by norm_num
      simp only [round2, h, rhe_intCast]
      norm_num
    simp only [score_panic, h1, h2, h3]
    norm_num

/-- Claim C4, counterexample: the claim says a debtToEquity value that is
negative contributes 0 to the growth score; in the code a negative value
satisfies the first test (at most 1) and contributes +1: with every
other field absent and an empty sector, the score is 1, not 0. -/
theorem negative_debt_counterexample :
    score_growth ⟨"", none, none, none, some (-5)⟩ false = 1 ∧
    score_growth ⟨"", none, none, none, some (-5)⟩ false ≠ 0 := by
  constructor <;> decide

set_option maxHeartbeats 1600000 in
/-- Claim C4, amended: a present debtToEquity value that is at most 1 or
at most 100 contributes exactly +1, and a value that is neither — that
is, one greater than 100 — contributes 0 rather than raising an error; a
negative value satisfies the at-most-1 test and therefore also
contributes +1, not 0. -/
theorem debt_contribution_amended :
    ∀ (sec : String) (roe eg rg : Option ℚ) (d : ℚ),
      score_growth ⟨sec, roe, eg, rg, some d⟩ false =
        score_growth ⟨sec, roe, eg, rg, none⟩ false +
          (if d ≤ 100 then 1 else 0) := by
  intro sec roe eg rg d
  simp only [score_growth]
  cases eg <;> cases rg <;> cases roe <;>
    simp only [Bool.false_eq_true, if_false] <;> split_ifs <;>
    first | omega | linarith

/-- Claim C5, counterexample: the claim says that whenever the rolling low
is at most 0 the run-up is 0 and the division is never performed. On the
window [-4, -2] the rolling low is -4 (at most 0), but safe_pct only
guards a zero denominator: the division is performed and yields -50. -/
theorem runup_guard_counterexample :
    listMin (lastWindow [(-4 : ℚ), -2] 20) ≤ 0 ∧
    runup_pct [(-4 : ℚ), -2] 20 = -50 ∧
    runup_pct [(-4 : ℚ), -2] 20 ≠ 0 := by
  have h : runup_pct [(-4 : ℚ), -2] 20 = -50 := by
    norm_num [runup_pct, safe_pct, lastWindow, listMin, lastClose, min_def]
  refine ⟨by decide, h, ?_⟩
  rw [h]
  norm_num

/-- Claim C5, amended: the run-up percentage is 0 when the rolling low is
exactly 0 (the only guarded denominator), and the same guard applies to
the drawdown when the rolling high is exactly 0; for a strictly negative
rolling low or high the division is performed. -/
theorem zero_guard_amended :
    (∀ (closes : List ℚ) (lb : Nat), listMin (lastWindow closes lb) = 0 →
      runup_pct closes lb = 0) ∧
    (∀ (closes : List ℚ) (lb : Nat), listMax (lastWindow closes lb) = 0 →
      drawdown_pct closes lb = 0) := by
  constructor
  · intro closes lb h
    rw [runup_pct, h, safe_pct, if_pos rfl]
  · intro closes lb h
    rw [drawdown_pct, h, safe_pct, if_pos rfl]

/-- Witness for zero_guard_amended at a concrete input. -/
theorem zero_guard_amended_witness :
    runup_pct [(0 : ℚ)] 5 = 0 ∧ drawdown_pct [(0 : ℚ)] 5 = 0 :=
  ⟨zero_guard_amended.1 [(0 : ℚ)] 5 (by decide),
   zero_guard_amended.2 [(0 : ℚ)] 5 (by decide)⟩

/-- Claim C6: score_growth returns exactly 0 when the fund-like flag is
true, regardless of the fundamentals content. -/
theorem score_growth_fundlike_zero : ∀ f : Fundamentals, score_growth f true = 0 :=
  fun _ => rfl

/-- Claim C7: for every closing-price series the pair (upStreak,
downStreak) returned by compute_streak has at most one non-zero
component, and equal consecutive closes at the most recent step terminate
the scan, giving (0, 0). -/
theorem streak_exclusive :
    (∀ closes : List ℚ,
      (compute_streak closes).1 = 0 ∨ (compute_streak closes).2 = 0) ∧
    (∀ (l : List ℚ) (x : ℚ), compute_streak (l ++ [x, x]) = (0, 0)) := by
  constructor
  · intro closes
    rw [compute_streak]
    split_ifs
    · simp
    · exact streakGo_exclusive _ 0 0 (Or.inl rfl)
  · intro l x
    have hlen : (l ++ [x, x]).length = l.length + 2 := by simp
    have hrev : (l ++ [x, x]).reverse = x :: x :: l.reverse := by simp
    rw [compute_streak, if_neg (by omega), hrev, streakGo]
    simp

/-- Claim C8: with fewer than 2 points both streaks are 0 (for both
compute_down_streak and compute_streak); for a strictly decreasing series
of length N at least 2 the down streak is N - 1 (and the up streak 0);
symmetrically the up streak is N - 1 for a strictly increasing series. -/
theorem streak_length_properties :
    (∀ closes : List ℚ, closes.length < 2 →
      compute_down_streak closes = 0 ∧ compute_streak closes = (0, 0)) ∧
    (∀ closes : List ℚ, 2 ≤ closes.length → closes.Chain' (· > ·) →
      compute_down_streak closes = closes.length - 1 ∧
      compute_streak closes = (0, closes.length - 1)) ∧
    (∀ closes : List ℚ, 2 ≤ closes.length → closes.Chain' (· < ·) →
      compute_streak closes = (closes.length - 1, 0)) := by
  refine ⟨?_, ?_, ?_⟩
  · intro closes hlen
    rw [compute_down_streak, if_pos hlen, compute_streak, if_pos hlen]
    exact ⟨rfl, rfl⟩
  · intro closes hlen hc
    have hrc : closes.reverse.Chain' (· < ·) := by
      rw [List.chain'_reverse]
      exact hc
    constructor
    · rw [compute_down_streak, if_neg (by omega), downGo_chain _ hrc 0]
      simp
    · rw [compute_streak, if_neg (by omega), streakGo_down_chain _ hrc 0]
      simp
  · intro closes hlen hc
    have hrc : closes.reverse.Chain' (· > ·) := by
      rw [List.chain'_reverse]
      exact hc
    rw [compute_streak, if_neg (by omega), streakGo_up_chain _ hrc 0]
    simp

/-- Witness for streak_length_properties at concrete inputs. -/
theorem streak_length_properties_witness :
    compute_down_streak [(5 : ℚ)] = 0 ∧ compute_streak [(5 : ℚ)] = (0, 0) ∧
    compute_down_streak [(3 : ℚ), 2, 1] = 2 ∧
    compute_streak [(3 : ℚ), 2, 1] = (0, 2) ∧
    compute_streak [(1 : ℚ), 2, 3] = (2, 0) :=
  ⟨(streak_length_properties.1 [(5 : ℚ)] (by decide)).1,
   (streak_length_properties.1 [(5 : ℚ)] (by decide)).2,
   (streak_length_properties.2.1 [(3 : ℚ), 2, 1] (by decide)
     (by norm_num [List.chain'_cons])).1,
   (streak_length_properties.2.1 [(3 : ℚ), 2, 1] (by decide)
     (by norm_num [List.chain'_cons])).2,
   streak_length_properties.2.2 [(1 : ℚ), 2, 3] (by decide)
     (by norm_num [List.chain'_cons])⟩

/-- Claim C9: in the scenario downStreak 8, streakThreshold 7, trend DOWN,
drawdown -25, drawdownThreshold 8 (run-up threshold 10), the alert set is
exactly ["Down 8 days", "Drawdown -25.0%"] and the severity rank is
2 + 2 + 1 = 5; the severity is used only to order the alert table
(sorted according to rowLE: descending severity, then ascending drawdown,
then descending down streak) and has no effect on which rows are flagged:
membership in the table is exactly having a non-empty alert set. -/
theorem alert_severity_properties :
    evaluateAlerts 8 0 Trend.DOWN (-25) 0 7 8 10 =
      ["Down 8 days", "Drawdown -25.0%"] ∧
    severity_rank Trend.DOWN (-25) 8 8 7 = 5 ∧
    (∀ (ddThr : ℚ) (sd : Nat) (rows : List Row) (r : Row),
      r ∈ buildAlertTable ddThr sd rows ↔ r ∈ rows ∧ r.alert ≠ []) ∧
    (∀ (ddThr : ℚ) (sd : Nat) (rows : List Row),
      List.Pairwise (fun x y => rowLE ddThr sd x y = true)
        (buildAlertTable ddThr sd rows)) := by
  refine ⟨?_, ?_, ?_, ?_⟩
  · have hf : fmt1 (-25) = "-25.0" := by
      have h : ((-25 : ℚ) * 10) = ((-250 : ℤ) : ℚ) := by norm_num
      simp only [fmt1, h, rhe_intCast]
      decide
    have h1 : ((-25 : ℚ) ≤ -(abs 8)) := by norm_num
    simp [evaluateAlerts, hf, h1]
    refine ⟨by decide, by norm_num⟩
  · have h1 : ((-25 : ℚ) ≤ -(abs 8)) := by norm_num
    simp [severity_rank, h1]
    norm_num
  · intro ddThr sd rows r
    rw [buildAlertTable, (List.mergeSort_perm _ _).mem_iff, List.mem_filter]
    simp [List.isEmpty_iff]
  · intro ddThr sd rows
    exact List.sorted_mergeSort (rowLE_trans ddThr sd) (rowLE_total ddThr sd) _

set_option maxHeartbeats 3200000 in
/-- Claim C10: for every fundamentals record and every fund-like flag the
growth score lies between 0 and 6 inclusive: the five rules contribute at
most 2 + 1 + 1 + 1 + 1 and never subtract. -/
theorem score_growth_bounds :
    ∀ (f : Fundamentals) (etf : Bool),
      0 ≤ score_growth f etf ∧ score_growth f etf ≤ 6 := by
  intro f etf
  rcases f with ⟨sec, roe, eg, rg, de⟩
  cases etf
  · simp only [score_growth]
    cases eg <;> cases rg <;> cases roe <;> cases de <;>
      simp only [Bool.false_eq_true, if_false] <;> split_ifs <;> omega
  · simp [score_growth]

end Portfolio
